import Mathlib

/--
Verification development for the extension-loading and risk-gating layer of
the freqtrade-derived trading engine.  The Lean definitions below are a
shallow embedding of the Python sources:

- `freqtrade/plugins/protections/max_drawdown_protection.py` (class
  `MaxDrawdown`), and
- `freqtrade/resolvers/hyperopt_resolver.py` (classes `HyperOptResolver`
  and `HyperOptLossResolver`).

Modelling conventions: timestamps are integers counting minutes (the code
only ever adds/subtracts whole-minute `timedelta`s and compares
timestamps); numeric profit ratios are exact rationals (`ℚ`); Python
exceptions are an explicit `PyError` value in an `Except` result;
filesystem paths are strings; the trade database is an explicit list
argument; external collaborators (the drawdown statistics function, the
per-directory class search) are function parameters.
-/
inductive PyError where
  | typeError (msg : String)
  | keyError (msg : String)
  | operationalException (msg : String)
  | valueError (msg : String)
deriving DecidableEq, Repr

deriving instance DecidableEq for Except

/-- One row of the trade store, restricted to the columns the drawdown
protection reads: `Trade.pair`, `Trade.is_open` and `Trade.close_date`
(minutes). -/
structure Trade where
  pair : String
  is_open : Bool
  close_date : Int
deriving DecidableEq, Repr

/-- The triple returned by the protection evaluation methods; the Python
`ProtectionReturn` is `Tuple[bool, Optional[datetime], Optional[str]]`. -/
structure ProtectionReturn where
  triggered : Bool
  lock_until : Option Int
  reason : Option String
deriving DecidableEq, Repr

/-- The fields `MaxDrawdown.__init__` reads from `protection_config`, with
the defaults of the source (`lookback_period` 60, `trade_limit` 1,
`max_allowed_drawdown` 0.0), plus `_stop_duration`, which the base class
`IProtection.__init__` reads from the same mapping. -/
structure MaxDrawdownParams where
  lookback_period : Int := 60
  trade_limit : Int := 1
  max_allowed_drawdown : ℚ := 0
  stop_duration : Int := 60
deriving Repr

/-- Smallest `k ≤ 17` with `den ∣ 10 ^ k`; 17 significant decimals is the
precision bound of CPython float repr. -/
def fracDigits (den : Nat) : Nat :=
  (((List.range 18).find? fun k => 10 ^ k % den == 0)).getD 17

/-- Left-pad a digit string with zeros to length `k`. -/
def padZeros (s : String) (k : Nat) : String :=
  String.mk (List.replicate (k - s.length) '0') ++ s

/-- Decimal rendering of a rational, modelling CPython `str()` on a float
whose value is a terminating decimal (for such values the shortest float
repr is exactly this decimal, e.g. `str(0.15) = "0.15"`, `str(0.0) =
"0.0"`).  The protection code interpolates the drawdown and the threshold
into its reason string with exactly this formatting. -/
def pyFloatRepr (q : ℚ) : String :=
  let k := fracDigits q.den
  let scaled : Int := q.num * ((10 ^ k) / q.den : Nat)
  let m := scaled.natAbs
  let ip := m / 10 ^ k
  let fp := m % 10 ^ k
  let sign := if scaled < 0 then "-" else ""
  if k == 0 then sign ++ toString ip ++ ".0"
  else sign ++ toString ip ++ "." ++ padZeros (toString fp) k

/-- The filter list built in `MaxDrawdown._max_drawdown`:
`Trade.is_open.is_(False)`, `Trade.close_date > look_back_until`, and —
only when `pair` is truthy (a non-empty string) — `Trade.pair == pair`. -/
def tradeMatches (look_back_until : Int) (pair : String) (t : Trade) : Bool :=
  (!t.is_open) && decide (look_back_until < t.close_date) &&
    (pair == "" || t.pair == pair)

/-- `Trade.get_trades(filters).all()` over the snapshot `db`, with
`look_back_until = date_now - timedelta(minutes=self._lookback_period)`. -/
def filteredTrades (p : MaxDrawdownParams) (db : List Trade) (date_now : Int)
    (pair : String) : List Trade :=
  db.filter (tradeMatches (date_now - p.lookback_period) pair)

/-- Modelled from the spec: `IProtection.calculate_lock_end` is defined in
the base class, which is not among the provided sources (only its call
site `self.calculate_lock_end(trades, self._stop_duration)` is).  The spec
defines the lock end of a triggered verdict as `now + stopDurationMinutes`
exactly, so the model takes `date_now` and adds the stop duration; the
`trades` argument of the call site is kept for fidelity. -/
def calculate_lock_end (date_now : Int) (trades : List Trade)
    (stop_minutes : Int) : Int :=
  date_now + stop_minutes

/-- `MaxDrawdown._reason`: the f-string
`f'{drawdown} > {self._max_allowed_drawdown} in {self._lookback_period} min, locking for {self._stop_duration} min.'`. -/
def MaxDrawdown._reason (p : MaxDrawdownParams) (drawdown : ℚ) : String :=
  pyFloatRepr drawdown ++ " > " ++ pyFloatRepr p.max_allowed_drawdown ++
    " in " ++ toString p.lookback_period ++ " min, locking for " ++
    toString p.stop_duration ++ " min."

/-- `MaxDrawdown._max_drawdown(date_now, pair)`: filter the recent closed
trades, return a non-triggered verdict when fewer than `_trade_limit`
match, otherwise compute the drawdown with the external statistics
collaborator `calculate_max_drawdown` (passed here as the function
parameter `calcMaxDrawdown`, which may raise, e.g. `ValueError` on an
empty frame) and compare it strictly against `_max_allowed_drawdown`. -/
def MaxDrawdown._max_drawdown (p : MaxDrawdownParams)
    (calcMaxDrawdown : List Trade → Except PyError ℚ) (db : List Trade)
    (date_now : Int) (pair : String) : Except PyError ProtectionReturn :=
  if ((filteredTrades p db date_now pair).length : Int) < p.trade_limit then
    Except.ok ⟨false, none, none⟩
  else
    match calcMaxDrawdown (filteredTrades p db date_now pair) with
    | Except.error e => Except.error e
    | Except.ok drawdown =>
      if p.max_allowed_drawdown < drawdown then
        Except.ok ⟨true,
          some (calculate_lock_end date_now (filteredTrades p db date_now pair)
            p.stop_duration),
          some (MaxDrawdown._reason p drawdown)⟩
      else
        Except.ok ⟨false, none, none⟩

/-- The `TypeError` message CPython raises for the call in `global_stop`. -/
def globalStopTypeErrorMsg : String :=
  "_max_drawdown() missing 1 required positional argument: \x27pair\x27"

/-- `MaxDrawdown.global_stop(date_now)`: its body is
`return self._max_drawdown(date_now)`.  In this source `_max_drawdown`
declares two required positional parameters, `date_now` and `pair`, and the
call supplies only `date_now`, so CPython raises
`TypeError: _max_drawdown() missing 1 required positional argument: 'pair'`
at the call, before the body of `_max_drawdown` runs.  The embedding
therefore evaluates to that error for every input; the configuration,
statistics collaborator and trade snapshot are kept as parameters because
the method has access to them. -/
def MaxDrawdown.global_stop (p : MaxDrawdownParams)
    (calcMaxDrawdown : List Trade → Except PyError ℚ) (db : List Trade)
    (date_now : Int) : Except PyError ProtectionReturn :=
  Except.error (PyError.typeError globalStopTypeErrorMsg)

/-- `MaxDrawdown.stop_per_pair(pair, date_now)`: the body is literally
`return False, None, None`; the configuration and the trade snapshot are
kept as parameters because the method has access to them but ignores
them. -/
def MaxDrawdown.stop_per_pair (p : MaxDrawdownParams) (db : List Trade)
    (pair : String) (date_now : Int) : ProtectionReturn :=
  ⟨false, none, none⟩

/-- The spec invariant on verdicts: `lock_until` and `reason` are present
iff `triggered` is true. -/
def verdictInv (r : ProtectionReturn) : Prop :=
  r.triggered = true ↔ (r.lock_until.isSome ∧ r.reason.isSome)

instance (r : ProtectionReturn) : Decidable (verdictInv r) := by
  unfold verdictInv; infer_instance

/-- The configuration mapping, restricted to the keys the two resolvers
read.  Each field is optional: `config.get(k)` yields `none` when absent,
while a `config[k]` subscript on an absent key raises `KeyError`.  The
configured `ticker_interval` is modelled as the string the code obtains
from `str(config['ticker_interval'])`. -/
structure Config where
  hyperopt : Option String := none
  hyperopt_loss : Option String := none
  hyperopt_path : Option String := none
  user_data_dir : Option String := none
  ticker_interval : Option String := none
deriving DecidableEq, Repr

/-- Python truthiness test `not config.get(key)` on an optional string:
true when the key is absent or maps to the empty string. -/
def falsyStr (o : Option String) : Bool :=
  o.getD "" == ""

/-- The built-in default location
`Path(__file__).parent.parent.joinpath('optimize').resolve()`, i.e. the
`freqtrade/optimize` package directory, modelled as an abstract path
string. -/
def current_path : String := "freqtrade/optimize"

/-- The `abs_paths` list built identically in
`HyperOptResolver._load_hyperopt` and
`HyperOptLossResolver._load_hyperoptloss`:
`[user_data_dir/'hyperopts', current_path]`, with `extra_dir` inserted at
position 0 when it is given. -/
def resolverAbsPaths (user_data_dir : String) (extra_dir : Option String) :
    List String :=
  match extra_dir with
  | some e => [e, user_data_dir ++ "/hyperopts", current_path]
  | none => [user_data_dir ++ "/hyperopts", current_path]

/-- Modelled from the spec: `IResolver._load_object` is defined in the
base class, which is not among the provided sources (only its call sites
are).  Per the spec it walks the locations in priority order and returns
the first object whose class name and capability match; probing one
location (`probe`) may itself raise, which models a search path that
would raise if touched.  `Except.ok none` means no location matched. -/
def _load_object {α : Type} (probe : String → String → Except PyError (Option α)) :
    List String → String → Except PyError (Option α)
  | [], _ => Except.ok none
  | p :: ps, name =>
    match probe p name with
    | Except.error e => Except.error e
    | Except.ok (some x) => Except.ok (some x)
    | Except.ok none => _load_object probe ps name

/-- A loaded hyperopt plugin instance, restricted to the attributes
`HyperOptResolver.__init__` inspects with `hasattr`. -/
structure HyperOptClass where
  name : String
  has_populate_buy_trend : Bool
  has_populate_sell_trend : Bool
deriving DecidableEq, Repr

/-- A loaded hyperopt-loss class object: its name, whether it defines the
required operation `hyperopt_loss_function`, and its class-level
`ticker_interval` attribute (mutated by the resolver). -/
structure HyperOptLossClass where
  name : String
  has_hyperopt_loss_function : Bool
  ticker_interval : Option String := none
deriving DecidableEq, Repr

/-- An instance of a hyperopt-loss class, as seen by Python attribute
lookup: it may carry its own instance-level `ticker_interval` entry (none
of the code paths here ever set one). -/
structure LossInstance where
  inst_ticker_interval : Option String := none
deriving DecidableEq, Repr

/-- Python attribute lookup of `ticker_interval` on an instance: the
instance dictionary shadows the class attribute. -/
def tickerLookup (cls : HyperOptLossClass) (i : LossInstance) : Option String :=
  match i.inst_ticker_interval with
  | some v => some v
  | none => cls.ticker_interval

/-- Message of the `OperationalException` raised by
`HyperOptResolver.__init__` when no hyperopt name is configured. -/
def hyperoptNotConfiguredMsg : String :=
  "No Hyperopt set. Please use `--customhyperopt` to specify the Hyperopt class to use."

/-- Message of the `OperationalException` raised by
`HyperOptLossResolver.__init__` when no loss-function name is
configured. -/
def hyperoptlossNotConfiguredMsg : String :=
  "No Hyperopt Loss Function set. Please use `--hyperopt-loss` to specify the Hyperopt Loss Function class to use."

/-- Message of the `OperationalException` raised at the end of
`HyperOptResolver._load_hyperopt` when no location yields a match. -/
def hyperoptNotFoundMsg (name : String) : String :=
  "Impossible to load Hyperopt \x27" ++ name ++
    "\x27. This class does not exist or contains Python code errors."

/-- Message of the `OperationalException` raised at the end of
`HyperOptLossResolver._load_hyperoptloss` when no location yields a
match. -/
def hyperoptlossNotFoundMsg (name : String) : String :=
  "Impossible to load HyperoptLoss \x27" ++ name ++
    "\x27. This class does not exist or contains Python code errors."

/-- Message of the `OperationalException` raised by
`HyperOptLossResolver.__init__` when the loaded class lacks
`hyperopt_loss_function`. -/
def lossContractMsg (name : String) : String :=
  "Found hyperopt " ++ name ++ " does not implement `hyperopt_loss_function`."

/-- Warning logged when the hyperopt class lacks `populate_buy_trend`. -/
def buyTrendWarnMsg : String :=
  "Hyperopt class does not provide populate_buy_trend() method. Using populate_buy_trend from the strategy."

/-- Warning logged when the hyperopt class lacks `populate_sell_trend`. -/
def sellTrendWarnMsg : String :=
  "Hyperopt class does not provide populate_sell_trend() method. Using populate_sell_trend from the strategy."

/-- `HyperOptResolver.__init__(config)`: after `config = config or {}`,
raise when `config.get('hyperopt')` is falsy; otherwise search the
`abs_paths` locations for the named class via `_load_object` (a `KeyError`
surfaces if `config['user_data_dir']` is absent), raise the
impossible-to-load `OperationalException` when nothing matches, and on
success emit a warning for each missing optional operation
(`populate_buy_trend`, `populate_sell_trend`).  The second component is
the list of warnings logged, in order. -/
def HyperOptResolver.init
    (probe : String → String → Except PyError (Option HyperOptClass))
    (config : Option Config) : Except PyError HyperOptClass × List String :=
  let cfg := config.getD {}
  if falsyStr cfg.hyperopt then
    (Except.error (PyError.operationalException hyperoptNotConfiguredMsg), [])
  else
    match cfg.user_data_dir with
    | none => (Except.error (PyError.keyError "user_data_dir"), [])
    | some udd =>
      match _load_object probe (resolverAbsPaths udd cfg.hyperopt_path)
          (cfg.hyperopt.getD "") with
      | Except.error e => (Except.error e, [])
      | Except.ok none =>
        (Except.error (PyError.operationalException
          (hyperoptNotFoundMsg (cfg.hyperopt.getD ""))), [])
      | Except.ok (some hyperopt) =>
        (Except.ok hyperopt,
          (if hyperopt.has_populate_buy_trend then [] else [buyTrendWarnMsg]) ++
          (if hyperopt.has_populate_sell_trend then [] else [sellTrendWarnMsg]))

/-- `HyperOptLossResolver.__init__(config)`: after `config = config or {}`,
raise when `config.get('hyperopt_loss')` is falsy; otherwise search the
`abs_paths` locations for the named class, raise the impossible-to-load
`OperationalException` when nothing matches; on a match, first execute
`self.hyperoptloss.__class__.ticker_interval = str(config['ticker_interval'])`
(a class-object mutation, and a `KeyError` if the key is absent), and only
then check `hasattr(self.hyperoptloss, 'hyperopt_loss_function')`, raising
the contract `OperationalException` when it is missing.  The second
component is the final state of the loaded class object (`none` when no
class was ever loaded), which survives a subsequently raised exception. -/
def HyperOptLossResolver.init
    (probe : String → String → Except PyError (Option HyperOptLossClass))
    (config : Option Config) :
    Except PyError HyperOptLossClass × Option HyperOptLossClass :=
  let cfg := config.getD {}
  if falsyStr cfg.hyperopt_loss then
    (Except.error (PyError.operationalException hyperoptlossNotConfiguredMsg),
      none)
  else
    match cfg.user_data_dir with
    | none => (Except.error (PyError.keyError "user_data_dir"), none)
    | some udd =>
      match _load_object probe (resolverAbsPaths udd cfg.hyperopt_path)
          (cfg.hyperopt_loss.getD "") with
      | Except.error e => (Except.error e, none)
      | Except.ok none =>
        (Except.error (PyError.operationalException
          (hyperoptlossNotFoundMsg (cfg.hyperopt_loss.getD ""))), none)
      | Except.ok (some cls) =>
        match cfg.ticker_interval with
        | none => (Except.error (PyError.keyError "ticker_interval"), some cls)
        | some tv =>
          let cls2 : HyperOptLossClass := { cls with ticker_interval := some tv }
          if cls2.has_hyperopt_loss_function then
            (Except.ok cls2, some cls2)
          else
            (Except.error (PyError.operationalException
              (lossContractMsg (cfg.hyperopt_loss.getD ""))), some cls2)

/-- String concatenation unfolds to list concatenation of the data. -/
theorem strToListAppend (a b : String) : (a ++ b).toList = a.toList ++ b.toList := rfl

/-- If probing every location yields no match, `_load_object` yields no
match. -/
theorem load_object_all_none {α : Type}
    (probe : String → String → Except PyError (Option α)) (name : String)
    (hp : ∀ p, probe p name = Except.ok none) :
    ∀ paths, _load_object probe paths name = Except.ok none := by
  intro paths
  induction paths with
  | nil => rfl
  | cons p ps ih => simp [_load_object, hp p, ih]

/-- Claim C1: for the Drawdown Guard, whenever the computed drawdown
strictly exceeds the configured threshold (and enough trades matched for
the computation to run), the evaluation returns a verdict with
`triggered = true`, `lock_until = now + stopDurationMinutes` exactly, and
a reason string embedding the observed drawdown, the threshold, and the
stop duration. -/
theorem MaxDrawdown.triggered_verdict_shape (p : MaxDrawdownParams)
    (calcDD : List Trade → Except PyError ℚ) (db : List Trade) (date_now : Int)
    (pair : String) (dd : ℚ)
    (hcount : p.trade_limit ≤ ((filteredTrades p db date_now pair).length : Int))
    (hcalc : calcDD (filteredTrades p db date_now pair) = Except.ok dd)
    (hdd : p.max_allowed_drawdown < dd) :
    MaxDrawdown._max_drawdown p calcDD db date_now pair =
      Except.ok ⟨true, some (date_now + p.stop_duration),
        some (pyFloatRepr dd ++ " > " ++ pyFloatRepr p.max_allowed_drawdown ++
          " in " ++ toString p.lookback_period ++ " min, locking for " ++
          toString p.stop_duration ++ " min.")⟩ := by
  have h1 : ¬ ((filteredTrades p db date_now pair).length : Int) < p.trade_limit :=
    not_lt.mpr hcount
  unfold MaxDrawdown._max_drawdown
  rw [if_neg h1]
  simp only [hcalc]
  rw [if_pos hdd]
  rfl

/-- The concrete scenario of the spec: lookback 60, trade limit 1,
max allowed drawdown 0.10, stop duration 30. -/
def scenParams : MaxDrawdownParams :=
  { lookback_period := 60, trade_limit := 1,
    max_allowed_drawdown := mkRat 1 10, stop_duration := 30 }

/-- Two closed trades inside the lookback window of `date_now = 1000`. -/
def scenTrades : List Trade :=
  [⟨"ETH/BTC", false, 980⟩, ⟨"XRP/BTC", false, 990⟩]

/-- A statistics collaborator computing a drawdown of 0.15 on the
scenario trades. -/
def scenCalc : List Trade → Except PyError ℚ :=
  fun _ => Except.ok (mkRat 3 20)

/-- Witness for C1: the concrete scenario of the spec, with drawdown 0.15
against threshold 0.1, yields the triggered verdict with lock end
1000 + 30 and the exact reason string of the spec. -/
theorem MaxDrawdown.triggered_verdict_shape_witness :
    MaxDrawdown._max_drawdown scenParams scenCalc scenTrades 1000 "" =
      Except.ok ⟨true, some 1030,
        some "0.15 > 0.1 in 60 min, locking for 30 min."⟩ ∧
    scenParams.max_allowed_drawdown < mkRat 3 20 ∧
    scenParams.trade_limit ≤ ((filteredTrades scenParams scenTrades 1000 "").length : Int) := by
  refine ⟨?_, by decide, by decide⟩
  exact (MaxDrawdown.triggered_verdict_shape scenParams scenCalc scenTrades 1000 ""
    (mkRat 3 20) (by decide) rfl (by decide)).trans (by decide)

/-- Claim C2 (code bug): `global_stop` is claimed to return a
non-triggered verdict on a history with zero matching trades, but its body
`return self._max_drawdown(date_now)` omits the required positional
argument `pair` of `_max_drawdown(self, date_now, pair)`, so every call —
in particular over an empty snapshot, for every timestamp — raises
`TypeError` instead of returning a verdict. -/
theorem MaxDrawdown.global_stop_raises (p : MaxDrawdownParams)
    (calcDD : List Trade → Except PyError ℚ) (date_now : Int) :
    MaxDrawdown.global_stop p calcDD [] date_now =
      Except.error (PyError.typeError globalStopTypeErrorMsg) := rfl

/-- Claim C3: with minimum trade count `N = trade_limit`, evaluation over
any snapshot with fewer than `N` trades matching the lookback-window
filter yields `triggered = false` (and no lock or reason), whatever the
statistics collaborator would have answered. -/
theorem MaxDrawdown.below_trade_limit_not_triggered (p : MaxDrawdownParams)
    (calcDD : List Trade → Except PyError ℚ) (db : List Trade) (date_now : Int)
    (pair : String)
    (h : ((filteredTrades p db date_now pair).length : Int) < p.trade_limit) :
    MaxDrawdown._max_drawdown p calcDD db date_now pair =
      Except.ok ⟨false, none, none⟩ := by
  unfold MaxDrawdown._max_drawdown
  rw [if_pos h]

/-- Witness for C3: trade limit 5, one matching trade, a statistics
collaborator that would raise if it were consulted: the verdict is
non-triggered. -/
theorem MaxDrawdown.below_trade_limit_not_triggered_witness :
    ((filteredTrades { trade_limit := 5 } [⟨"ETH/BTC", false, 995⟩] 1000 "").length : Int) <
      (MaxDrawdownParams.trade_limit { trade_limit := 5 }) ∧
    MaxDrawdown._max_drawdown { trade_limit := 5 }
      (fun _ => Except.error (PyError.valueError "Trade dataframe empty."))
      [⟨"ETH/BTC", false, 995⟩] 1000 "" = Except.ok ⟨false, none, none⟩ :=
  ⟨by decide,
   MaxDrawdown.below_trade_limit_not_triggered { trade_limit := 5 }
     (fun _ => Except.error (PyError.valueError "Trade dataframe empty."))
     [⟨"ETH/BTC", false, 995⟩] 1000 "" (by decide)⟩

/-- Claim C4: the Drawdown Guard's per-instrument evaluation
`stop_per_pair` returns a non-triggered verdict for every pair, every
timestamp, every configuration and every trade history. -/
theorem MaxDrawdown.stop_per_pair_not_triggered (p : MaxDrawdownParams)
    (db : List Trade) (pair : String) (date_now : Int) :
    MaxDrawdown.stop_per_pair p db pair date_now = ⟨false, none, none⟩ := rfl

/-- Claim C5: every `ProtectionReturn` produced by an evaluation method of
the Drawdown Guard has `lock_until` and `reason` present iff `triggered`
is true (`global_stop` produces no verdict at all, so the two producing
methods are `_max_drawdown` and `stop_per_pair`). -/
theorem MaxDrawdown.verdict_invariant :
    (∀ (p : MaxDrawdownParams) (calcDD : List Trade → Except PyError ℚ)
        (db : List Trade) (date_now : Int) (pair : String) (r : ProtectionReturn),
      MaxDrawdown._max_drawdown p calcDD db date_now pair = Except.ok r →
        verdictInv r) ∧
    (∀ (p : MaxDrawdownParams) (db : List Trade) (pair : String) (date_now : Int),
      verdictInv (MaxDrawdown.stop_per_pair p db pair date_now)) := by
  constructor
  · intro p calcDD db date_now pair r h
    unfold MaxDrawdown._max_drawdown at h
    split at h
    · injection h with h2
      subst h2
      decide
    · split at h
      · exact absurd h (by simp)
      · split at h
        · injection h with h2
          subst h2
          simp [verdictInv]
        · injection h with h2
          subst h2
          decide
  · intro p db pair date_now
    simp [verdictInv, MaxDrawdown.stop_per_pair]

/-- Witness for C5: the invariant applied to the verdict `_max_drawdown`
produces on an empty history with the default configuration. -/
theorem MaxDrawdown.verdict_invariant_witness :
    verdictInv ⟨false, none, none⟩ :=
  MaxDrawdown.verdict_invariant.1 {} (fun _ => Except.ok 0) [] 0 ""
    ⟨false, none, none⟩ rfl

/-- Claim C6: whenever the required plugin name (`hyperopt` /
`hyperopt_loss`) is absent or empty, resolver construction fails with the
not-configured `OperationalException` — for every probe function, in
particular one that raises whenever a search path is touched — so the
search is never attempted.  Covers both an explicit empty value and an
entirely absent configuration. -/
theorem Resolver.not_configured_before_search
    (probeH : String → String → Except PyError (Option HyperOptClass))
    (probeL : String → String → Except PyError (Option HyperOptLossClass))
    (cfg : Config)
    (h1 : cfg.hyperopt.getD "" = "")
    (h2 : cfg.hyperopt_loss.getD "" = "") :
    HyperOptResolver.init probeH (some cfg) =
      (Except.error (PyError.operationalException hyperoptNotConfiguredMsg), []) ∧
    HyperOptLossResolver.init probeL (some cfg) =
      (Except.error (PyError.operationalException hyperoptlossNotConfiguredMsg), none) ∧
    HyperOptResolver.init probeH none =
      (Except.error (PyError.operationalException hyperoptNotConfiguredMsg), []) ∧
    HyperOptLossResolver.init probeL none =
      (Except.error (PyError.operationalException hyperoptlossNotConfiguredMsg), none) := by
  refine ⟨?_, ?_, rfl, rfl⟩ <;>
    simp [HyperOptResolver.init, HyperOptLossResolver.init, falsyStr, h1, h2]

/-- A probe that raises as soon as any search location is touched. -/
def touchyProbeH : String → String → Except PyError (Option HyperOptClass) :=
  fun _ _ => Except.error (PyError.operationalException "search path touched")

/-- A probe that raises as soon as any search location is touched. -/
def touchyProbeL : String → String → Except PyError (Option HyperOptLossClass) :=
  fun _ _ => Except.error (PyError.operationalException "search path touched")

/-- Witness for C6: with both names configured to the empty string and
probes that would raise if any location were touched, both resolvers fail
with the not-configured message and the probes are never consulted. -/
theorem Resolver.not_configured_before_search_witness :
    (({ hyperopt := some "", hyperopt_loss := some "" } : Config).hyperopt.getD "" = "") ∧
    HyperOptResolver.init touchyProbeH
        (some { hyperopt := some "", hyperopt_loss := some "" }) =
      (Except.error (PyError.operationalException hyperoptNotConfiguredMsg), []) ∧
    HyperOptLossResolver.init touchyProbeL
        (some { hyperopt := some "", hyperopt_loss := some "" }) =
      (Except.error (PyError.operationalException hyperoptlossNotConfiguredMsg), none) :=
  ⟨rfl,
   (Resolver.not_configured_before_search touchyProbeH touchyProbeL
     { hyperopt := some "", hyperopt_loss := some "" } rfl rfl).1,
   (Resolver.not_configured_before_search touchyProbeH touchyProbeL
     { hyperopt := some "", hyperopt_loss := some "" } rfl rfl).2.1⟩

/-- A configuration naming plugins that no search location provides. -/
def cfgNoMatch : Config :=
  { hyperopt := some "NoSuchOpt", hyperopt_loss := some "NoSuchLoss",
    user_data_dir := some "/udd" }

set_option maxRecDepth 8000 in
/-- Counterexample to claim C7 as stated: with plugin name `NoSuchOpt`,
user data directory `/udd` and no match anywhere, resolution fails with
the impossible-to-load `OperationalException`, but the error message does
not contain the searched locations `/udd/hyperopts` and
`freqtrade/optimize` — it carries only the plugin name. -/
theorem Resolver.not_found_counterexample :
    (HyperOptResolver.init (fun _ _ => Except.ok none) (some cfgNoMatch)).1 =
      Except.error (PyError.operationalException (hyperoptNotFoundMsg "NoSuchOpt")) ∧
    ¬ ("/udd/hyperopts".toList <:+: (hyperoptNotFoundMsg "NoSuchOpt").toList) ∧
    ¬ (current_path.toList <:+: (hyperoptNotFoundMsg "NoSuchOpt").toList) :=
  ⟨rfl, by decide, by decide⟩

/-- Claim C7 as amended: for every non-empty plugin name that matches no
class in any searched location, resolution fails with an
`OperationalException` that carries the plugin name (the searched
locations are not part of the error). -/
theorem Resolver.not_found_error_carries_name
    (cfg : Config)
    (probeH : String → String → Except PyError (Option HyperOptClass))
    (probeL : String → String → Except PyError (Option HyperOptLossClass))
    (nameH nameL udd : String)
    (hH1 : cfg.hyperopt = some nameH) (hHn : nameH ≠ "")
    (hL1 : cfg.hyperopt_loss = some nameL) (hLn : nameL ≠ "")
    (hu : cfg.user_data_dir = some udd)
    (hH : ∀ p, probeH p nameH = Except.ok none)
    (hL : ∀ p, probeL p nameL = Except.ok none) :
    (HyperOptResolver.init probeH (some cfg)).1 =
      Except.error (PyError.operationalException (hyperoptNotFoundMsg nameH)) ∧
    (HyperOptLossResolver.init probeL (some cfg)).1 =
      Except.error (PyError.operationalException (hyperoptlossNotFoundMsg nameL)) ∧
    nameH.toList <:+: (hyperoptNotFoundMsg nameH).toList ∧
    nameL.toList <:+: (hyperoptlossNotFoundMsg nameL).toList := by
  have hfH : falsyStr (some nameH) = false := by simp [falsyStr, hHn]
  have hfL : falsyStr (some nameL) = false := by simp [falsyStr, hLn]
  have hH2 := load_object_all_none probeH nameH hH (resolverAbsPaths udd cfg.hyperopt_path)
  have hL2 := load_object_all_none probeL nameL hL (resolverAbsPaths udd cfg.hyperopt_path)
  refine ⟨?_, ?_, ?_, ?_⟩
  · simp [HyperOptResolver.init, hH1, hu, hH2, hfH]
  · simp [HyperOptLossResolver.init, hL1, hu, hL2, hfL]
  · exact ⟨("Impossible to load Hyperopt \x27").toList,
      ("\x27. This class does not exist or contains Python code errors.").toList, rfl⟩
  · exact ⟨("Impossible to load HyperoptLoss \x27").toList,
      ("\x27. This class does not exist or contains Python code errors.").toList, rfl⟩

/-- Witness for the amended C7 at the concrete no-match configuration. -/
theorem Resolver.not_found_error_carries_name_witness :
    (HyperOptResolver.init (fun _ _ => Except.ok none) (some cfgNoMatch)).1 =
      Except.error (PyError.operationalException (hyperoptNotFoundMsg "NoSuchOpt")) ∧
    (HyperOptLossResolver.init (fun _ _ => Except.ok none) (some cfgNoMatch)).1 =
      Except.error (PyError.operationalException (hyperoptlossNotFoundMsg "NoSuchLoss")) ∧
    "NoSuchOpt".toList <:+: (hyperoptNotFoundMsg "NoSuchOpt").toList ∧
    "NoSuchLoss".toList <:+: (hyperoptlossNotFoundMsg "NoSuchLoss").toList :=
  Resolver.not_found_error_carries_name cfgNoMatch
    (fun _ _ => Except.ok none) (fun _ _ => Except.ok none)
    "NoSuchOpt" "NoSuchLoss" "/udd" rfl (by decide) rfl (by decide) rfl
    (fun _ => rfl) (fun _ => rfl)

/-- Claim C8: the search path is `[user_data/hyperopts, builtin]`, with a
user-supplied extra directory prepended first when given; the built-in
default `freqtrade/optimize` is always last; and the first match in this
order wins — a match at the extra directory is returned whatever the later
locations hold, and a match at the user data location is returned whatever
the built-in location holds. -/
theorem Resolver.search_path_priority (udd extra name : String)
    (probe probe2 : String → String → Except PyError (Option HyperOptClass))
    (x y : HyperOptClass)
    (hx : probe extra name = Except.ok (some x))
    (h2e : probe2 extra name = Except.ok none)
    (h2u : probe2 (udd ++ "/hyperopts") name = Except.ok (some y)) :
    resolverAbsPaths udd (some extra) = [extra, udd ++ "/hyperopts", current_path] ∧
    resolverAbsPaths udd none = [udd ++ "/hyperopts", current_path] ∧
    (resolverAbsPaths udd (some extra)).getLast? = some current_path ∧
    (resolverAbsPaths udd none).getLast? = some current_path ∧
    _load_object probe (resolverAbsPaths udd (some extra)) name =
      Except.ok (some x) ∧
    _load_object probe2 (resolverAbsPaths udd (some extra)) name =
      Except.ok (some y) := by
  refine ⟨rfl, rfl, rfl, rfl, ?_, ?_⟩
  · simp [resolverAbsPaths, _load_object, hx]
  · simp [resolverAbsPaths, _load_object, h2e, h2u]

/-- A hyperopt class as found in the extra directory. -/
def wOptA : HyperOptClass := ⟨"SampleHyperOpt", true, true⟩

/-- A distinct hyperopt class of the same public name as found in a
lower-priority location. -/
def wOptB : HyperOptClass := ⟨"SampleHyperOpt", false, false⟩

/-- Witness for C8: with classes of the same name in several locations,
the extra directory wins over the rest, and the user data directory wins
over the built-in location. -/
theorem Resolver.search_path_priority_witness :
    _load_object
        (fun p _ => if p == "/extra" then Except.ok (some wOptA)
          else Except.ok (some wOptB))
        (resolverAbsPaths "/udd" (some "/extra")) "SampleHyperOpt" =
      Except.ok (some wOptA) ∧
    _load_object
        (fun p _ => if p == "/extra" then Except.ok none
          else if p == "/udd/hyperopts" then Except.ok (some wOptA)
          else Except.ok (some wOptB))
        (resolverAbsPaths "/udd" (some "/extra")) "SampleHyperOpt" =
      Except.ok (some wOptA) := by
  have h := Resolver.search_path_priority "/udd" "/extra" "SampleHyperOpt"
    (fun p _ => if p == "/extra" then Except.ok (some wOptA)
      else Except.ok (some wOptB))
    (fun p _ => if p == "/extra" then Except.ok none
      else if p == "/udd/hyperopts" then Except.ok (some wOptA)
      else Except.ok (some wOptB))
    wOptA wOptA rfl rfl rfl
  exact ⟨h.2.2.2.2.1, h.2.2.2.2.2⟩

/-- Claim C9: after a matched plugin is instantiated, a missing required
operation (`hyperopt_loss_function` on the loss contract) fails resolution
with the contract `OperationalException`, while missing optional
operations (`populate_buy_trend`, `populate_sell_trend` on the hyperopt
contract) only log warnings that record the strategy fallback, and
resolution succeeds. -/
theorem Resolver.contract_checks (cfg : Config)
    (probeH : String → String → Except PyError (Option HyperOptClass))
    (probeL : String → String → Except PyError (Option HyperOptLossClass))
    (nameH nameL udd tv : String) (h : HyperOptClass) (cls : HyperOptLossClass)
    (hH1 : cfg.hyperopt = some nameH) (hHn : nameH ≠ "")
    (hL1 : cfg.hyperopt_loss = some nameL) (hLn : nameL ≠ "")
    (hu : cfg.user_data_dir = some udd) (htv : cfg.ticker_interval = some tv)
    (hloadH : _load_object probeH (resolverAbsPaths udd cfg.hyperopt_path) nameH =
      Except.ok (some h))
    (hbuy : h.has_populate_buy_trend = false)
    (hsell : h.has_populate_sell_trend = false)
    (hloadL : _load_object probeL (resolverAbsPaths udd cfg.hyperopt_path) nameL =
      Except.ok (some cls))
    (hfn : cls.has_hyperopt_loss_function = false) :
    HyperOptResolver.init probeH (some cfg) =
      (Except.ok h, [buyTrendWarnMsg, sellTrendWarnMsg]) ∧
    (HyperOptLossResolver.init probeL (some cfg)).1 =
      Except.error (PyError.operationalException (lossContractMsg nameL)) := by
  have hfH : falsyStr (some nameH) = false := by simp [falsyStr, hHn]
  have hfL : falsyStr (some nameL) = false := by simp [falsyStr, hLn]
  constructor
  · simp [HyperOptResolver.init, hH1, hu, hloadH, hfH, hbuy, hsell]
  · simp [HyperOptLossResolver.init, hL1, hu, hloadL, hfL, htv, hfn]

/-- Configuration for the contract-check witness. -/
def w9cfg : Config :=
  { hyperopt := some "OptX", hyperopt_loss := some "LossX",
    user_data_dir := some "/udd", ticker_interval := some "5m" }

/-- A hyperopt class providing neither optional operation. -/
def w9opt : HyperOptClass := ⟨"OptX", false, false⟩

/-- A loss class missing the required `hyperopt_loss_function`. -/
def w9loss : HyperOptLossClass := ⟨"LossX", false, none⟩

/-- Witness for C9 at concrete classes: the hyperopt resolver succeeds
with both fallback warnings, the loss resolver fails with the contract
error. -/
theorem Resolver.contract_checks_witness :
    HyperOptResolver.init (fun _ _ => Except.ok (some w9opt)) (some w9cfg) =
      (Except.ok w9opt, [buyTrendWarnMsg, sellTrendWarnMsg]) ∧
    (HyperOptLossResolver.init (fun _ _ => Except.ok (some w9loss)) (some w9cfg)).1 =
      Except.error (PyError.operationalException (lossContractMsg "LossX")) :=
  Resolver.contract_checks w9cfg
    (fun _ _ => Except.ok (some w9opt)) (fun _ _ => Except.ok (some w9loss))
    "OptX" "LossX" "/udd" "5m" w9opt w9loss
    rfl (by decide) rfl (by decide) rfl rfl rfl rfl rfl rfl rfl

/-- Claim C10: `HyperOptLossResolver` injects the configured
`ticker_interval` onto the loaded class object (not the instance) before
the required-operation check: the final class state carries the injected
value even when resolution then fails because `hyperopt_loss_function` is
missing, and every instance of that class without an instance-level
attribute of its own observes the injected value. -/
theorem Resolver.ticker_interval_class_injection (cfg : Config)
    (probeL : String → String → Except PyError (Option HyperOptLossClass))
    (nameL udd tv : String) (cls : HyperOptLossClass)
    (hL1 : cfg.hyperopt_loss = some nameL) (hLn : nameL ≠ "")
    (hu : cfg.user_data_dir = some udd) (htv : cfg.ticker_interval = some tv)
    (hloadL : _load_object probeL (resolverAbsPaths udd cfg.hyperopt_path) nameL =
      Except.ok (some cls))
    (hfn : cls.has_hyperopt_loss_function = false) :
    HyperOptLossResolver.init probeL (some cfg) =
      (Except.error (PyError.operationalException (lossContractMsg nameL)),
        some { cls with ticker_interval := some tv }) ∧
    (∀ i : LossInstance, i.inst_ticker_interval = none →
      tickerLookup { cls with ticker_interval := some tv } i = some tv) := by
  have hfL : falsyStr (some nameL) = false := by simp [falsyStr, hLn]
  constructor
  · simp [HyperOptLossResolver.init, hL1, hu, hloadL, hfL, htv, hfn]
  · intro i hi
    simp [tickerLookup, hi]

/-- Configuration for the class-injection witness. -/
def w10cfg : Config :=
  { hyperopt_loss := some "ShortTradeDurHyperOptLoss",
    user_data_dir := some "/home/user/ft", ticker_interval := some "1h" }

/-- A loss class missing the required operation, before injection. -/
def w10cls : HyperOptLossClass := ⟨"ShortTradeDurHyperOptLoss", false, none⟩

/-- Witness for C10: the class state after the failed resolution carries
`ticker_interval = "1h"`, and a pre-existing instance with no
instance-level attribute observes it. -/
theorem Resolver.ticker_interval_class_injection_witness :
    HyperOptLossResolver.init (fun _ _ => Except.ok (some w10cls)) (some w10cfg) =
      (Except.error (PyError.operationalException
        (lossContractMsg "ShortTradeDurHyperOptLoss")),
        some { w10cls with ticker_interval := some "1h" }) ∧
    tickerLookup { w10cls with ticker_interval := some "1h" } {} = some "1h" := by
  have h := Resolver.ticker_interval_class_injection w10cfg
    (fun _ _ => Except.ok (some w10cls)) "ShortTradeDurHyperOptLoss"
    "/home/user/ft" "1h" w10cls rfl (by decide) rfl rfl rfl rfl
  exact ⟨h.1, h.2 {} rfl⟩
